import Mathlib

/-!
Shallow embedding of the build-time capability-probing engine in `setup.py`
of the jpeg2dct repository: the trial-compile fallback chains
(`get_cpp_flags`, `get_tf_libs`, `get_tf_abi`), the TensorFlow flag
discovery (`get_tf_flags`, `check_tf_version`), the baseline option
computation (`get_conda_include_dir`, `get_common_options`) and the
extension-build orchestration (`build_common_extension`,
`build_numpy_extension`, `build_tf_extension`,
`custom_build_ext.build_extensions`).

External effects are abstracted as oracles: a trial compile/link/load
attempt for one candidate is a function from the candidate to a
`TrialOutcome`; the process environment is a function from variable names
to `Option String`; the TensorFlow installation state is an explicit
datatype.  Everything else is translated directly from the source.
-/

/-- Outcome of one trial attempt for one candidate configuration: the body
of the `try:` block of a probe loop in `setup.py` either returns normally
(`test_compile` succeeded, and where applicable `load_op_library` too),
raises `CompileError`, raises `LinkError`, or raises some other exception
whose formatted traceback is `diag`. -/
inductive TrialOutcome where
  | success (artifact : String)
  | compileError (diag : String)
  | linkError (diag : String)
  | otherExc (diag : String)
deriving DecidableEq, Repr

/-- `o.succeeded` is true when the trial returned normally. -/
def TrialOutcome.succeeded : TrialOutcome → Bool
  | .success _ => true
  | _ => false

/-- One iteration pattern shared verbatim by the three probe loops in
`setup.py` (`get_cpp_flags` lines 51-67, `get_tf_libs` lines 84-104,
`get_tf_abi` lines 110-136): try each candidate in order; on normal return
answer that candidate; on `CompileError`/`LinkError` set
`last_err = reasonCL` and continue; on any other exception set
`last_err = reasonOther traceback` and continue; when the list is
exhausted raise `DistutilsPlatformError(last_err)` (the error payload is
`Option String` because `last_err` starts as Python `None`). -/
def probeLoop {α : Type} (trial : α → TrialOutcome) (reasonCL : String)
    (reasonOther : String → String) :
    List α → Option String → Except (Option String) α
  | [], last_err => .error last_err
  | cand :: rest, _ =>
    match trial cand with
    | .success _ => .ok cand
    | .compileError _ => probeLoop trial reasonCL reasonOther rest (some reasonCL)
    | .linkError _ => probeLoop trial reasonCL reasonOther rest (some reasonCL)
    | .otherExc tb => probeLoop trial reasonCL reasonOther rest (some (reasonOther tb))

/-- `default_flags` of `get_cpp_flags`. -/
def default_flags : List String := ["-std=c++11", "-fPIC", "-O2"]

/-- `flags_to_try` of `get_cpp_flags`: candidate order depends on whether
`sys.platform == 'darwin'`. -/
def flags_to_try (darwin : Bool) : List (List String) :=
  if darwin then
    [default_flags ++ ["-stdlib=libc++"], default_flags]
  else
    [default_flags, default_flags ++ ["-stdlib=libc++"]]

/-- `get_cpp_flags` (setup.py lines 43-67): negotiate the C++ flags over
`flags_to_try`, with the two reason strings of the source. -/
def get_cpp_flags (darwin : Bool) (trial : List String → TrialOutcome) :
    Except (Option String) (List String) :=
  probeLoop trial
    "Unable to determine C++ compilation flags (see error above)."
    (fun tb =>
      "Unable to determine C++ compilation flags.  Last error:\n\n" ++ tb)
    (flags_to_try darwin) none

/-- `get_tf_libs` (setup.py lines 82-104): candidates are
`[['tensorflow_framework'], []]`; a trial compiles a no-op source and then
loads the artifact through `load_op_library`, which the oracle folds into
one `TrialOutcome`. -/
def get_tf_libs (trial : List String → TrialOutcome) :
    Except (Option String) (List String) :=
  probeLoop trial
    "Unable to determine -l link flags to use with TensorFlow (see error above)."
    (fun tb =>
      "Unable to determine -l link flags to use with TensorFlow.  Last error:\n\n" ++ tb)
    [["tensorflow_framework"], []] none

/-- `get_tf_abi` (setup.py lines 107-136): candidates are the macro values
`'0'` and `'1'`; on success the pair `(cxx11_abi_macro, cxx11_abi)` is
returned. -/
def get_tf_abi (trial : String → TrialOutcome) :
    Except (Option String) (String × String) :=
  (probeLoop trial
    "Unable to determine CXX11 ABI to use with TensorFlow (see error above)."
    (fun tb =>
      "Unable to determine CXX11 ABI to use with TensorFlow.  Last error:\n\n" ++ tb)
    ["0", "1"] none).map (fun v => ("_GLIBCXX_USE_CXX11_ABI", v))

/-- The reason string a probe records for an outcome, as a function of the
two reason builders of the loop (`reasonCL` for `CompileError`/`LinkError`,
`reasonOther` applied to the traceback for any other exception).  The
`success` case never occurs where this is used. -/
def failReason (reasonCL : String) (reasonOther : String → String) :
    TrialOutcome → String
  | .success _ => reasonCL
  | .compileError _ => reasonCL
  | .linkError _ => reasonCL
  | .otherExc tb => reasonOther tb

/-- State of the optional TensorFlow installation as observed by
`import tensorflow`. -/
inductive TfImport where
  | absent
  | noVersionAttr
  | version (v : String)
deriving DecidableEq, Repr

/-- Whether `tf.sysconfig.get_compile_flags` / `get_link_flags` exist
(newer TensorFlow) or raise `AttributeError` (older TensorFlow). -/
inductive SysconfigFlags where
  | available (compileFlags linkFlags : List String)
  | unavailable
deriving DecidableEq, Repr

/-- Python `<` on two strings, on their character lists: lexicographic by
code point, and a proper prefix is smaller. -/
def pyCharsLt : List Char → List Char → Bool
  | [], [] => false
  | [], _ :: _ => true
  | _ :: _, [] => false
  | a :: as, b :: bs =>
    if a < b then true
    else if b < a then false
    else pyCharsLt as bs

/-- Python string comparison `a < b`. -/
def pyStrLt (a b : String) : Bool := pyCharsLt a.data b.data

/-- `check_tf_version` (setup.py lines 27-40).  `tb` is the traceback text
formatted when `import tensorflow` raises `ImportError`.  The version test
is Python string comparison `tf.__version__ < '1.1.0'`, i.e.
lexicographic order on the characters (`pyStrLt`). -/
def check_tf_version (t : TfImport) (tb : String) : Except String Unit :=
  match t with
  | .absent =>
    .error ("import tensorflow failed, is it installed?\n\n" ++ tb)
  | .noVersionAttr =>
    .error "Your TensorFlow version is outdated.  Horovod requires tensorflow>=1.1.0"
  | .version v =>
    if pyStrLt v "1.1.0" then
      .error ("Your TensorFlow version " ++ v ++
        " is outdated.  Horovod requires tensorflow>=1.1.0")
    else
      .ok ()

/-- Substring test at every suffix, used for Python `pat in s`. -/
def charsContain (pat : List Char) : List Char → Bool
  | [] => pat.isEmpty
  | c :: rest => pat.isPrefixOf (c :: rest) || charsContain pat rest

/-- Python `pat in s` on strings: `pat` occurs as a contiguous substring
of `s`. -/
def strContains (s pat : String) : Bool := charsContain pat.data s.data

/-- `os.path.join(a, b)` for two components (POSIX): an absolute second
component wins; otherwise a separator is inserted unless `a` is empty or
already ends with one. -/
def pathJoin (a b : String) : String :=
  if b.data.head? = some '/' then b
  else if a.data = [] then b
  else if a.data.getLast? = some '/' then a ++ b
  else a ++ "/" ++ b

/-- `get_conda_include_dir` (setup.py lines 189-191):
`os.environ.get('CONDA_PREFIX', '.')` joined with `'include'`.  `env` is
`os.environ` as a partial map. -/
def get_conda_include_dir (env : String → Option String) : List String :=
  [pathJoin ((env "CONDA_PREFIX").getD ".") "include"]

/-- Python truthiness of `os.environ.get(k)`: false when the variable is
unset (`None`) or set to the empty string. -/
def envTruthy (env : String → Option String) (k : String) : Bool :=
  match env k with
  | none => false
  | some s => !(s = "")

/-- The build-time world outside the orchestrator: the process
environment, the host platform, the trial-compile oracles, and the state
of the optional TensorFlow and NumPy installations. -/
structure World where
  env : String → Option String
  darwin : Bool
  cppTrial : List String → TrialOutcome
  tfimp : TfImport
  importTb : String
  sysconfig : SysconfigFlags
  tf_inc : String
  tf_lib_dir : String
  libsTrial : List String → TrialOutcome
  abiTrial : String → TrialOutcome
  numpyInclude : String

/-- `get_tf_include_dirs` (setup.py lines 70-73): `tf.sysconfig.get_include()`
and its `external/nsync/public` subdirectory. -/
def get_tf_include_dirs (w : World) : List String :=
  [w.tf_inc, w.tf_inc ++ "/external/nsync/public"]

/-- `get_tf_lib_dirs` (setup.py lines 76-79): `tf.sysconfig.get_lib()`. -/
def get_tf_lib_dirs (w : World) : List String :=
  [w.tf_lib_dir]

/-- `get_tf_flags` (setup.py lines 139-163): prefer
`tf.sysconfig.get_compile_flags()` / `get_link_flags()`; on
`AttributeError` fall back to manual discovery via `get_tf_libs` and
`get_tf_abi`, rendering include dirs as `-I...`, the ABI pair as
`-Dmacro=value` (the pair is always truthy), lib dirs as `-L...` and libs
as `-l...`. -/
def get_tf_flags (w : World) :
    Except (Option String) (List String × List String) :=
  match w.sysconfig with
  | .available cf lf => .ok (cf, lf)
  | .unavailable =>
    let tf_include_dirs := get_tf_include_dirs w
    let tf_lib_dirs := get_tf_lib_dirs w
    match get_tf_libs w.libsTrial with
    | .error e => .error e
    | .ok tf_libs =>
      match get_tf_abi w.abiTrial with
      | .error e => .error e
      | .ok tf_abi =>
        let compile_flags :=
          tf_include_dirs.map (fun d => "-I" ++ d) ++
            ["-D" ++ tf_abi.1 ++ "=" ++ tf_abi.2]
        let link_flags :=
          tf_lib_dirs.map (fun d => "-L" ++ d) ++
            tf_libs.map (fun l => "-l" ++ l)
        .ok (compile_flags, link_flags)

/-- The `options` dictionary built by `get_common_options`
(setup.py lines 194-211). -/
structure Options where
  MACROS : List (String × String)
  INCLUDES : List String
  SOURCES : List String
  COMPILE_FLAGS : List String
  LINK_FLAGS : List String
  LIBRARY_DIRS : List String
  LIBRARIES : List String
deriving DecidableEq, Repr

/-- `get_common_options` (setup.py lines 194-211): the baseline options,
fatal (`DistutilsPlatformError`) when `get_cpp_flags` fails. -/
def get_common_options (w : World) : Except (Option String) Options :=
  match get_cpp_flags w.darwin w.cppTrial with
  | .error e => .error e
  | .ok cpp_flags =>
    .ok { MACROS := []
          INCLUDES := [] ++ get_conda_include_dir w.env
          SOURCES := []
          COMPILE_FLAGS := cpp_flags
          LINK_FLAGS := []
          LIBRARY_DIRS := []
          LIBRARIES := [] }

/-- The fields `setup.py` assigns on an `Extension` object right before
calling `build_ext.build_extension` on it: the payload of one build
invocation. -/
structure ExtFields where
  define_macros : List (String × String)
  include_dirs : List String
  sources : List String
  extra_compile_args : List String
  extra_link_args : List String
  library_dirs : List String
  libraries : List String
deriving DecidableEq, Repr

/-- `build_common_extension` (setup.py lines 214-224): the invocation
payload for `common_lib`. -/
def build_common_extension (options : Options)
    (abi_compile_flags : List String) : ExtFields :=
  { define_macros := options.MACROS
    include_dirs := options.INCLUDES
    sources := options.SOURCES ++ ["jpeg2dct/common/dctfromjpg.cc"]
    extra_compile_args := options.COMPILE_FLAGS ++ abi_compile_flags
    extra_link_args := options.LINK_FLAGS
    library_dirs := options.LIBRARY_DIRS
    libraries := options.LIBRARIES ++ ["jpeg"] }

/-- `build_numpy_extension` (setup.py lines 227-238): the invocation
payload for `numpy_lib`; `numpyInclude` is `numpy.get_include()`. -/
def build_numpy_extension (options : Options)
    (abi_compile_flags : List String) (numpyInclude : String) : ExtFields :=
  { define_macros := options.MACROS
    include_dirs := options.INCLUDES ++ [numpyInclude]
    sources := options.SOURCES ++ ["jpeg2dct/numpy/dctfromjpg_wrap.cc"]
    extra_compile_args := options.COMPILE_FLAGS ++ abi_compile_flags
    extra_link_args := options.LINK_FLAGS
    library_dirs := options.LIBRARY_DIRS
    libraries := options.LIBRARIES }

/-- An exception escaping `build_tf_extension`: the
`DistutilsPlatformError` of `check_tf_version` (a `String` payload) or
the `DistutilsPlatformError` of an exhausted probe in `get_tf_flags`
(an `Option String` payload, `last_err`). -/
inductive TfBuildErr where
  | versionErr (msg : String)
  | probeErr (msg : Option String)
deriving DecidableEq, Repr

/-- The text `traceback.format_exc()` shows for a `TfBuildErr`, reduced to
the exception message it carries. -/
def tfErrText : TfBuildErr → String
  | .versionErr m => m
  | .probeErr (some m) => m
  | .probeErr none => "None"

/-- `build_tf_extension` (setup.py lines 241-259): check the TensorFlow
version, discover its flags, fill in `tf_lib`, and return the subset of
the discovered compile flags that mention `_GLIBCXX_USE_CXX11_ABI` (the
ABI flags reused for all the other libraries). -/
def build_tf_extension (w : World) (options : Options) :
    Except TfBuildErr (ExtFields × List String) :=
  match check_tf_version w.tfimp w.importTb with
  | .error m => .error (.versionErr m)
  | .ok _ =>
    match get_tf_flags w with
    | .error e => .error (.probeErr e)
    | .ok (tf_compile_flags, tf_link_flags) =>
      .ok
        ({ define_macros := options.MACROS
           include_dirs := options.INCLUDES
           sources := options.SOURCES ++ ["jpeg2dct/tensorflow/tf_lib.cc"]
           extra_compile_args := options.COMPILE_FLAGS ++ tf_compile_flags
           extra_link_args := options.LINK_FLAGS ++ tf_link_flags
           library_dirs := options.LIBRARY_DIRS
           libraries := options.LIBRARIES },
         tf_compile_flags.filter
           (fun flag => strContains flag "_GLIBCXX_USE_CXX11_ABI"))

/-- An exception escaping `custom_build_ext.build_extensions`: the fatal
`DistutilsPlatformError` of the baseline `get_cpp_flags` probe, or a
re-raised TensorFlow build failure when `JPEG2DCT_WITH_TENSORFLOW` is
truthy. -/
inductive OrchErr where
  | cppErr (msg : Option String)
  | tfErr (e : TfBuildErr)
deriving DecidableEq, Repr

/-- What one successful run of `custom_build_ext.build_extensions` did:
the `abi_compile_flags` and `built_plugins` variables at the end, the
`tf_lib` payload when the TensorFlow extension was built, the warning
printed when it was skipped, and the `common_lib` / `numpy_lib`
payloads. -/
structure BuildResult where
  abi_compile_flags : List String
  built_plugins : List Bool
  tfExt : Option ExtFields
  warning : Option String
  commonExt : ExtFields
  numpyExt : ExtFields
deriving DecidableEq, Repr

/-- `custom_build_ext.build_extensions` (setup.py lines 263-280):
compute the baseline options; unless `JPEG2DCT_WITHOUT_TENSORFLOW` is
truthy, attempt `build_tf_extension`, on failure either warn and record a
skipped plugin (when `JPEG2DCT_WITH_TENSORFLOW` is falsy) or re-raise;
then always build `common_lib` and `numpy_lib` with the collected
`abi_compile_flags` (initially `[]`). -/
def build_extensions (w : World) : Except OrchErr BuildResult :=
  match get_common_options w with
  | .error m => .error (.cppErr m)
  | .ok options =>
    let tfStep : Except OrchErr
        (List String × List Bool × Option ExtFields × Option String) :=
      if !envTruthy w.env "JPEG2DCT_WITHOUT_TENSORFLOW" then
        match build_tf_extension w options with
        | .ok (fields, abi) => .ok (abi, [true], some fields, none)
        | .error e =>
          if !envTruthy w.env "JPEG2DCT_WITH_TENSORFLOW" then
            .ok ([], [false], none,
              some ("INFO: Unable to build TensorFlow plugin, will skip it.\n\n"
                ++ tfErrText e))
          else
            .error (.tfErr e)
      else
        .ok ([], [], none, none)
    match tfStep with
    | .error e => .error e
    | .ok (abi_compile_flags, built_plugins, tfExt, warning) =>
      .ok { abi_compile_flags := abi_compile_flags
            built_plugins := built_plugins
            tfExt := tfExt
            warning := warning
            commonExt := build_common_extension options abi_compile_flags
            numpyExt :=
              build_numpy_extension options abi_compile_flags w.numpyInclude }

def envNone : String → Option String := fun _ => none

def trialOkL : List String → TrialOutcome := fun _ => .success "ok.so"

def trialOkS : String → TrialOutcome := fun _ => .success "ok.so"

def w7 : World :=
  { env := envNone
    darwin := false
    cppTrial := trialOkL
    tfimp := .version "1.4.0"
    importTb := ""
    sysconfig := .available ["-Iinc"] ["-Lfw", "-lfw"]
    tf_inc := "/tf/include"
    tf_lib_dir := "/tf/lib"
    libsTrial := trialOkL
    abiTrial := trialOkS
    numpyInclude := "/np/include" }

/-- The baseline options produced by `get_common_options` on any world
with an empty environment, a succeeding C++ trial and a non-darwin
platform (such as `w7`). -/
def opts1 : Options :=
  { MACROS := []
    INCLUDES := ["./include"]
    SOURCES := []
    COMPILE_FLAGS := default_flags
    LINK_FLAGS := []
    LIBRARY_DIRS := []
    LIBRARIES := [] }

/-- A world whose TensorFlow sysconfig reports one ABI macro flag among
its compile flags. -/
def w1 : World :=
  { w7 with sysconfig :=
      .available ["-D_GLIBCXX_USE_CXX11_ABI=1", "-Iinc"] ["-ltensorflow_framework"] }

/-- The `tf_lib` payload produced by `build_tf_extension` on `w1` with
`opts1`. -/
def fields1 : ExtFields :=
  { define_macros := []
    include_dirs := ["./include"]
    sources := ["jpeg2dct/tensorflow/tf_lib.cc"]
    extra_compile_args := default_flags ++ ["-D_GLIBCXX_USE_CXX11_ABI=1", "-Iinc"]
    extra_link_args := ["-ltensorflow_framework"]
    library_dirs := []
    libraries := [] }

/-- An environment with only `JPEG2DCT_WITH_TENSORFLOW` set. -/
def envWith : String → Option String :=
  fun k => if k = "JPEG2DCT_WITH_TENSORFLOW" then some "1" else none

/-- An environment with only `JPEG2DCT_WITHOUT_TENSORFLOW` set. -/
def envWithout : String → Option String :=
  fun k => if k = "JPEG2DCT_WITHOUT_TENSORFLOW" then some "1" else none

/-- A world where TensorFlow is absent and the environment requires the
TensorFlow build. -/
def w4 : World :=
  { w7 with env := envWith, tfimp := .absent, importTb := "ImportError: no module named tensorflow" }

/-- A world where TensorFlow is absent and neither environment flag is
set. -/
def w5 : World :=
  { w7 with tfimp := .absent, importTb := "ImportError: no module named tensorflow" }

/-- A world where the environment disables the TensorFlow build and
TensorFlow is absent. -/
def wA : World :=
  { w7 with env := envWithout, tfimp := .absent }

/-- Like `wA` but with a completely different TensorFlow side of the
world: its build result must coincide with `wA`'s, because the probe is
never consulted. -/
def wB : World :=
  { w7 with
    env := envWithout
    tfimp := TfImport.version "0.9"
    sysconfig := SysconfigFlags.unavailable
    libsTrial := fun _ => TrialOutcome.compileError "no tf"
    abiTrial := fun _ => TrialOutcome.linkError "no tf" }

/-- A trial oracle on `Nat` candidates: candidate 0 fails to compile,
candidate 1 succeeds, candidate 2 fails to link. -/
def trialN : Nat → TrialOutcome :=
  fun n => if n = 0 then .compileError "e0" else if n = 1 then .success "win.so" else .linkError "e2"

/-- Agrees with `trialN` on candidates 0 and 1, behaves differently on
candidate 2 (which must never be consulted once candidate 1 wins). -/
def trialN2 : Nat → TrialOutcome :=
  fun n => if n = 0 then .compileError "e0" else if n = 1 then .success "win.so" else .otherExc "boom"

/-- A trial oracle whose candidates all fail: candidate 0 with a
`CompileError`, every other candidate with a non-compile non-link
exception. -/
def trialFail : Nat → TrialOutcome :=
  fun n => if n = 0 then .compileError "e0" else .otherExc "boom"

/-- A C++ flags trial where the first candidate (`default_flags` on a
non-darwin platform) raises an exception that is neither `CompileError`
nor `LinkError`, and the second candidate succeeds. -/
def trialC3 : List String → TrialOutcome :=
  fun flags =>
    if flags = default_flags then .otherExc "RuntimeError: boom"
    else .success "test_cpp_flags.so"

/-- The rejection condition of the version check as the claim states it:
the import failed, no version attribute, or version string
lexicographically below the string 1.1.0. -/
def versionCheckRejects : TfImport → Bool
  | .absent => true
  | .noVersionAttr => true
  | .version v => pyStrLt v "1.1.0"

/-- Whether an `Except` is an error. -/
def exceptIsErr {ε β : Type} : Except ε β → Bool
  | .error _ => true
  | .ok _ => false

theorem succeeded_eq_true {o : TrialOutcome} (h : o.succeeded = true) :
    ∃ a, o = .success a := by
  cases o <;> simp_all [TrialOutcome.succeeded]

/-- C2: for every ordered candidate list given to a probe loop, the
negotiation returns the first candidate (in declared order) for which the
trial succeeds, and no candidate after the winning one is attempted: any
oracle that agrees with the first on the candidates up to and including
the winner produces the same answer, whatever it does on the later
candidates.  `get_cpp_flags`, `get_tf_libs` and `get_tf_abi` are all
instances of `probeLoop`. -/
theorem negotiation_first_success_wins {α : Type}
    (trial trial2 : α → TrialOutcome) (rCL : String) (rO : String → String)
    (pre post : List α) (win : α)
    (hfail : ∀ c ∈ pre, (trial c).succeeded = false)
    (hwin : (trial win).succeeded = true)
    (hagree : ∀ c ∈ pre, trial2 c = trial c)
    (hagreeWin : trial2 win = trial win) :
    ∀ last_err, probeLoop trial rCL rO (pre ++ win :: post) last_err = .ok win ∧
      probeLoop trial2 rCL rO (pre ++ win :: post) last_err = .ok win := by
  induction pre with
  | nil =>
    intro last_err
    obtain ⟨a, ha⟩ := succeeded_eq_true hwin
    constructor
    · simp [probeLoop, ha]
    · simp [probeLoop, hagreeWin, ha]
  | cons c cs ih =>
    intro last_err
    have hc : (trial c).succeeded = false := hfail c (by simp)
    have hc2 : trial2 c = trial c := hagree c (by simp)
    have hfail2 : ∀ x ∈ cs, (trial x).succeeded = false :=
      fun x hx => hfail x (by simp [hx])
    have hagree2 : ∀ x ∈ cs, trial2 x = trial x :=
      fun x hx => hagree x (by simp [hx])
    have ihh := ih hfail2 hagree2
    cases ho : trial c with
    | success a => rw [ho] at hc; simp [TrialOutcome.succeeded] at hc
    | compileError d =>
      exact ⟨by simpa [probeLoop, ho] using (ihh (some rCL)).1,
             by simpa [probeLoop, hc2, ho] using (ihh (some rCL)).2⟩
    | linkError d =>
      exact ⟨by simpa [probeLoop, ho] using (ihh (some rCL)).1,
             by simpa [probeLoop, hc2, ho] using (ihh (some rCL)).2⟩
    | otherExc tb =>
      exact ⟨by simpa [probeLoop, ho] using (ihh (some (rO tb))).1,
             by simpa [probeLoop, hc2, ho] using (ihh (some (rO tb))).2⟩

theorem negotiation_first_success_wins_witness :
    probeLoop trialN "r" (fun tb => "o:" ++ tb) ([0] ++ 1 :: [2]) none = .ok 1 ∧
    probeLoop trialN2 "r" (fun tb => "o:" ++ tb) ([0] ++ 1 :: [2]) none = .ok 1 :=
  negotiation_first_success_wins trialN trialN2 "r" (fun tb => "o:" ++ tb)
    [0] [2] 1 (by decide) (by decide) (by decide) (by decide) none

/-- C6: if every candidate in a probe loop fails, the loop raises
`DistutilsPlatformError` whose carried diagnostic is the reason recorded
for the last attempted candidate — the result depends only on the last
candidate's outcome, every earlier reason having been overwritten. -/
theorem negotiation_all_fail_last_reason {α : Type}
    (trial : α → TrialOutcome) (rCL : String) (rO : String → String)
    (init : List α) (lastc : α)
    (hfail : ∀ c ∈ init, (trial c).succeeded = false)
    (hlast : (trial lastc).succeeded = false) :
    ∀ last_err, probeLoop trial rCL rO (init ++ [lastc]) last_err =
      .error (some (failReason rCL rO (trial lastc))) := by
  induction init with
  | nil =>
    intro last_err
    cases ho : trial lastc with
    | success a => rw [ho] at hlast; simp [TrialOutcome.succeeded] at hlast
    | compileError d => simp [probeLoop, ho, failReason]
    | linkError d => simp [probeLoop, ho, failReason]
    | otherExc tb => simp [probeLoop, ho, failReason]
  | cons c cs ih =>
    intro last_err
    have hc : (trial c).succeeded = false := hfail c (by simp)
    have hfail2 : ∀ x ∈ cs, (trial x).succeeded = false :=
      fun x hx => hfail x (by simp [hx])
    have ihh := ih hfail2
    cases ho : trial c with
    | success a => rw [ho] at hc; simp [TrialOutcome.succeeded] at hc
    | compileError d => simpa [probeLoop, ho] using ihh (some rCL)
    | linkError d => simpa [probeLoop, ho] using ihh (some rCL)
    | otherExc tb => simpa [probeLoop, ho] using ihh (some (rO tb))

theorem negotiation_all_fail_last_reason_witness :
    probeLoop trialFail "r" (fun tb => "last:" ++ tb) ([0] ++ [1]) none =
      .error (some "last:boom") :=
  negotiation_all_fail_last_reason trialFail "r" (fun tb => "last:" ++ tb)
    [0] 1 (by decide) (by decide) none

/-- C3 counterexample: in `get_cpp_flags` on a non-darwin platform, the
first candidate raises an exception that is neither `CompileError` nor
`LinkError`, yet the probe swallows it, moves on to the second candidate
and returns it — the run ends in success, not in an immediately fatal
propagation of that exception. -/
theorem other_exception_swallowed_cex :
    get_cpp_flags false trialC3 = .ok (default_flags ++ ["-stdlib=libc++"]) ∧
    trialC3 default_flags = .otherExc "RuntimeError: boom" := by
  constructor <;> rfl

/-- C3 amended: if a trial attempt raises an exception that is neither a
`CompileError` nor a `LinkError`, the probe loop records a reason carrying
the full formatted traceback of that exception and continues with the
remaining candidates; the exception itself is swallowed like the
compile/link failures, and surfaces only through `last_err` if every
candidate fails. -/
theorem other_exception_recorded_and_loop_continues {α : Type}
    (trial : α → TrialOutcome) (rCL : String) (rO : String → String)
    (c : α) (rest : List α) (tb : String) (last_err : Option String)
    (h : trial c = .otherExc tb) :
    probeLoop trial rCL rO (c :: rest) last_err =
      probeLoop trial rCL rO rest (some (rO tb)) := by
  simp [probeLoop, h]

theorem other_exception_recorded_and_loop_continues_witness :
    probeLoop trialFail "r" (fun tb => "T:" ++ tb) (1 :: [0]) none =
      probeLoop trialFail "r" (fun tb => "T:" ++ tb) [0] (some "T:boom") :=
  other_exception_recorded_and_loop_continues trialFail "r"
    (fun tb => "T:" ++ tb) 1 [0] "boom" none (by rfl)

/-- C1: for every run in which the TensorFlow build step succeeds and
yields ABI macro flags, the orchestrator passes exactly the list returned
by `build_tf_extension` (the `_GLIBCXX_USE_CXX11_ABI` subset of the
discovered TensorFlow compile flags) to both the `common_lib` build and
the `numpy_lib` build, appended to the baseline compile flags, and the
TensorFlow artifact itself was compiled with flags whose ABI subset is
that same list — all three artifacts share one ABI macro setting. -/
theorem abi_flags_consistent_across_artifacts
    (w : World) (options : Options) (fields : ExtFields) (abi : List String)
    (hopts : get_common_options w = .ok options)
    (hskip : envTruthy w.env "JPEG2DCT_WITHOUT_TENSORFLOW" = false)
    (htf : build_tf_extension w options = .ok (fields, abi)) :
    build_extensions w = .ok
      { abi_compile_flags := abi
        built_plugins := [true]
        tfExt := some fields
        warning := none
        commonExt := build_common_extension options abi
        numpyExt := build_numpy_extension options abi w.numpyInclude } ∧
    (build_common_extension options abi).extra_compile_args =
      options.COMPILE_FLAGS ++ abi ∧
    (build_numpy_extension options abi w.numpyInclude).extra_compile_args =
      options.COMPILE_FLAGS ++ abi ∧
    fields.extra_compile_args.filter
        (fun flag => strContains flag "_GLIBCXX_USE_CXX11_ABI") =
      options.COMPILE_FLAGS.filter
        (fun flag => strContains flag "_GLIBCXX_USE_CXX11_ABI") ++ abi := by
  refine ⟨?_, rfl, rfl, ?_⟩
  · simp [build_extensions, hopts, hskip, htf]
  · unfold build_tf_extension at htf
    cases hv : check_tf_version w.tfimp w.importTb with
    | error m => rw [hv] at htf; simp at htf
    | ok u =>
      rw [hv] at htf
      cases hf : get_tf_flags w with
      | error e => rw [hf] at htf; simp at htf
      | ok p =>
        rw [hf] at htf
        obtain ⟨tfcf, tflf⟩ := p
        simp only [Except.ok.injEq, Prod.mk.injEq] at htf
        obtain ⟨hfe, habi⟩ := htf
        rw [← hfe, ← habi]
        simp [List.filter_append]

theorem abi_flags_consistent_across_artifacts_witness :
    build_extensions w1 = .ok
      { abi_compile_flags := ["-D_GLIBCXX_USE_CXX11_ABI=1"]
        built_plugins := [true]
        tfExt := some fields1
        warning := none
        commonExt := build_common_extension opts1 ["-D_GLIBCXX_USE_CXX11_ABI=1"]
        numpyExt :=
          build_numpy_extension opts1 ["-D_GLIBCXX_USE_CXX11_ABI=1"] w1.numpyInclude } ∧
    (build_common_extension opts1 ["-D_GLIBCXX_USE_CXX11_ABI=1"]).extra_compile_args =
      opts1.COMPILE_FLAGS ++ ["-D_GLIBCXX_USE_CXX11_ABI=1"] ∧
    (build_numpy_extension opts1 ["-D_GLIBCXX_USE_CXX11_ABI=1"]
        w1.numpyInclude).extra_compile_args =
      opts1.COMPILE_FLAGS ++ ["-D_GLIBCXX_USE_CXX11_ABI=1"] ∧
    fields1.extra_compile_args.filter
        (fun flag => strContains flag "_GLIBCXX_USE_CXX11_ABI") =
      opts1.COMPILE_FLAGS.filter
        (fun flag => strContains flag "_GLIBCXX_USE_CXX11_ABI") ++
        ["-D_GLIBCXX_USE_CXX11_ABI=1"] :=
  abi_flags_consistent_across_artifacts w1 opts1 fields1
    ["-D_GLIBCXX_USE_CXX11_ABI=1"] (by rfl) (by rfl) (by rfl)

/-- C4: when the TensorFlow build step fails and
`JPEG2DCT_WITH_TENSORFLOW` is set (to a non-empty, Python-truthy value),
the orchestrator re-raises the failure: `build_extensions` ends in that
very error and produces no build payloads for `common_lib` or
`numpy_lib`. -/
theorem require_tf_failure_fatal
    (w : World) (options : Options) (e : TfBuildErr)
    (hopts : get_common_options w = .ok options)
    (hskip : envTruthy w.env "JPEG2DCT_WITHOUT_TENSORFLOW" = false)
    (htf : build_tf_extension w options = .error e)
    (hreq : envTruthy w.env "JPEG2DCT_WITH_TENSORFLOW" = true) :
    build_extensions w = .error (.tfErr e) := by
  simp [build_extensions, hopts, hskip, htf, hreq]

theorem require_tf_failure_fatal_witness :
    build_extensions w4 = .error (.tfErr (.versionErr
      "import tensorflow failed, is it installed?\n\nImportError: no module named tensorflow")) :=
  require_tf_failure_fatal w4 opts1
    (.versionErr
      "import tensorflow failed, is it installed?\n\nImportError: no module named tensorflow")
    (by rfl) (by rfl) (by rfl) (by rfl)

/-- C5: when the TensorFlow build step fails and
`JPEG2DCT_WITH_TENSORFLOW` is not truthy, the orchestrator records the
INFO warning naming the failure, still builds both `common_lib` and
`numpy_lib`, and passes them an empty ABI flag list, so their compile
flags are exactly the baseline flags with nothing appended. -/
theorem optional_tf_failure_warns_and_builds
    (w : World) (options : Options) (e : TfBuildErr)
    (hopts : get_common_options w = .ok options)
    (hskip : envTruthy w.env "JPEG2DCT_WITHOUT_TENSORFLOW" = false)
    (htf : build_tf_extension w options = .error e)
    (hreq : envTruthy w.env "JPEG2DCT_WITH_TENSORFLOW" = false) :
    build_extensions w = .ok
      { abi_compile_flags := []
        built_plugins := [false]
        tfExt := none
        warning := some
          ("INFO: Unable to build TensorFlow plugin, will skip it.\n\n" ++ tfErrText e)
        commonExt := build_common_extension options []
        numpyExt := build_numpy_extension options [] w.numpyInclude } ∧
    (build_common_extension options []).extra_compile_args =
      options.COMPILE_FLAGS ∧
    (build_numpy_extension options [] w.numpyInclude).extra_compile_args =
      options.COMPILE_FLAGS := by
  refine ⟨?_, by simp [build_common_extension], by simp [build_numpy_extension]⟩
  simp [build_extensions, hopts, hskip, htf, hreq]

theorem optional_tf_failure_warns_and_builds_witness :
    build_extensions w5 = .ok
      { abi_compile_flags := []
        built_plugins := [false]
        tfExt := none
        warning := some
          ("INFO: Unable to build TensorFlow plugin, will skip it.\n\n" ++ tfErrText
            (.versionErr
              "import tensorflow failed, is it installed?\n\nImportError: no module named tensorflow"))
        commonExt := build_common_extension opts1 []
        numpyExt := build_numpy_extension opts1 [] w5.numpyInclude } ∧
    (build_common_extension opts1 []).extra_compile_args = opts1.COMPILE_FLAGS ∧
    (build_numpy_extension opts1 [] w5.numpyInclude).extra_compile_args =
      opts1.COMPILE_FLAGS :=
  optional_tf_failure_warns_and_builds w5 opts1
    (.versionErr
      "import tensorflow failed, is it installed?\n\nImportError: no module named tensorflow")
    (by rfl) (by rfl) (by rfl) (by rfl)

/-- C8: when `JPEG2DCT_WITHOUT_TENSORFLOW` is set (to a non-empty,
Python-truthy value), the TensorFlow build step is never invoked — the
whole run is independent of every TensorFlow-related part of the world —
and the orchestrator builds `common_lib` and `numpy_lib` with an empty
ABI flag list and an empty `built_plugins`. -/
theorem without_tf_skips_probe
    (w w2 : World)
    (henv : envTruthy w.env "JPEG2DCT_WITHOUT_TENSORFLOW" = true)
    (he : w2.env = w.env) (hd : w2.darwin = w.darwin)
    (hc : w2.cppTrial = w.cppTrial) (hn : w2.numpyInclude = w.numpyInclude) :
    build_extensions w2 = build_extensions w ∧
    build_extensions w =
      (match get_common_options w with
       | .error m => .error (.cppErr m)
       | .ok options =>
         .ok { abi_compile_flags := []
               built_plugins := []
               tfExt := none
               warning := none
               commonExt := build_common_extension options []
               numpyExt := build_numpy_extension options [] w.numpyInclude }) := by
  have hopts : get_common_options w2 = get_common_options w := by
    unfold get_common_options get_conda_include_dir
    rw [he, hd, hc]
  have henv2 : envTruthy w2.env "JPEG2DCT_WITHOUT_TENSORFLOW" = true := by
    rw [he]; exact henv
  constructor
  · unfold build_extensions
    rw [hopts, hn, he]
    cases get_common_options w with
    | error m => rfl
    | ok options => simp [henv]
  · unfold build_extensions
    cases get_common_options w with
    | error m => rfl
    | ok options => simp [henv]

theorem without_tf_skips_probe_witness :
    build_extensions wB = build_extensions wA ∧
    build_extensions wA =
      (match get_common_options wA with
       | .error m => .error (.cppErr m)
       | .ok options =>
         .ok { abi_compile_flags := []
               built_plugins := []
               tfExt := none
               warning := none
               commonExt := build_common_extension options []
               numpyExt := build_numpy_extension options [] wA.numpyInclude }) :=
  without_tf_skips_probe wA wB (by rfl) (by rfl) (by rfl) (by rfl) (by rfl)

/-- C7 counterexample: with a TensorFlow whose flags-discovery interface
reports compile flags `["-Iinc"]` and link flags `["-Lfw", "-lfw"]`
(world `w7`), the core-artifact (`common_lib`) build invocation does NOT
include those strings: its compile flags are exactly the baseline
`["-std=c++11", "-fPIC", "-O2"]` (no `-Iinc`) and its extra link flags
are `[]` (no `-Lfw`, no `-lfw`). -/
theorem core_build_roundtrip_cex :
    w7.sysconfig = .available ["-Iinc"] ["-Lfw", "-lfw"] ∧
    (build_extensions w7).map
      (fun r => (r.commonExt.extra_compile_args, r.commonExt.extra_link_args)) =
    .ok (["-std=c++11", "-fPIC", "-O2"], []) := by
  constructor <;> rfl

/-- C7 amended: the round-trip holds for the framework-plugin artifact:
when the flags-discovery interface reports compile flags `cf` and link
flags `lf`, the `tf_lib` build invocation receives exactly `cf` appended
to the baseline compile flags and exactly `lf` appended to the baseline
link flags, unmodified and in order; the core artifact receives only the
`_GLIBCXX_USE_CXX11_ABI` subset of `cf` (empty for the flags of the
claim). -/
theorem tf_build_roundtrip
    (w : World) (options : Options) (cf lf : List String)
    (hver : check_tf_version w.tfimp w.importTb = .ok ())
    (hsc : w.sysconfig = .available cf lf) :
    (build_tf_extension w options).map
      (fun p => (p.1.extra_compile_args, p.1.extra_link_args, p.2)) =
    .ok (options.COMPILE_FLAGS ++ cf, options.LINK_FLAGS ++ lf,
      cf.filter (fun flag => strContains flag "_GLIBCXX_USE_CXX11_ABI")) := by
  simp [build_tf_extension, get_tf_flags, hver, hsc, Except.map]

theorem tf_build_roundtrip_witness :
    (build_tf_extension w7 opts1).map
      (fun p => (p.1.extra_compile_args, p.1.extra_link_args, p.2)) =
    .ok (opts1.COMPILE_FLAGS ++ ["-Iinc"], opts1.LINK_FLAGS ++ ["-Lfw", "-lfw"],
      (["-Iinc"] : List String).filter
        (fun flag => strContains flag "_GLIBCXX_USE_CXX11_ABI")) :=
  tf_build_roundtrip w7 opts1 ["-Iinc"] ["-Lfw", "-lfw"] (by rfl) (by rfl)

/-- C9 counterexample: in an environment where `CONDA_PREFIX` is unset
(world `w7`), the baseline include list is `["./include"]`, not empty —
`get_conda_include_dir` falls back to the default `'.'` of
`os.environ.get` and always contributes one directory. -/
theorem conda_include_unset_cex :
    envNone "CONDA_PREFIX" = none ∧
    get_conda_include_dir envNone = ["./include"] ∧
    (get_common_options w7).map (fun o => o.INCLUDES) = .ok ["./include"] :=
  ⟨rfl, rfl, rfl⟩

/-- C9 amended: the baseline include list always contains exactly one
entry, `os.path.join(prefix, 'include')` where `prefix` is `CONDA_PREFIX`
when that variable is set and the fallback `'.'` when it is unset — so an
environment-declared prefix contributes its include directory when set,
and `./include` (not nothing) is contributed when unset. -/
theorem conda_include_always_present
    (w : World) (options : Options)
    (hopts : get_common_options w = .ok options) :
    options.INCLUDES = [pathJoin ((w.env "CONDA_PREFIX").getD ".") "include"] ∧
    (w.env "CONDA_PREFIX" = none → options.INCLUDES = ["./include"]) ∧
    (∀ p, w.env "CONDA_PREFIX" = some p →
      options.INCLUDES = [pathJoin p "include"]) := by
  have hinc : options.INCLUDES = get_conda_include_dir w.env := by
    unfold get_common_options at hopts
    cases hg : get_cpp_flags w.darwin w.cppTrial with
    | error m => rw [hg] at hopts; simp at hopts
    | ok cpp =>
      rw [hg] at hopts
      simp only [Except.ok.injEq] at hopts
      subst hopts
      simp
  refine ⟨?_, ?_, ?_⟩
  · rw [hinc]; rfl
  · intro hnone; rw [hinc]; unfold get_conda_include_dir; rw [hnone]; rfl
  · intro p hp; rw [hinc]; unfold get_conda_include_dir; rw [hp]; rfl

theorem conda_include_always_present_witness :
    opts1.INCLUDES = ["./include"] :=
  (conda_include_always_present w7 opts1 (by rfl)).2.1 (by rfl)

theorem pyCharsLt_iff :
    ∀ as bs : List Char, pyCharsLt as bs = true ↔ List.Lex (· < ·) as bs := by
  intro as
  induction as with
  | nil =>
    intro bs
    cases bs with
    | nil => simp [pyCharsLt]
    | cons b bs =>
      simp only [pyCharsLt, true_iff]
      exact List.Lex.nil
  | cons a as ih =>
    intro bs
    cases bs with
    | nil => simp [pyCharsLt]
    | cons b bs =>
      simp only [pyCharsLt]
      by_cases hab : a < b
      · rw [if_pos hab]
        simp only [true_iff]
        exact List.Lex.rel hab
      · rw [if_neg hab]
        by_cases hba : b < a
        · rw [if_pos hba]
          simp only [Bool.false_eq_true, false_iff]
          intro h
          cases h with
          | cons h2 => exact absurd hba (lt_irrefl _)
          | rel h2 => exact hab h2
        · rw [if_neg hba]
          have heq : a = b := le_antisymm (not_lt.mp hba) (not_lt.mp hab)
          subst heq
          rw [ih bs]
          exact (List.Lex.cons_iff).symm

/-- C10: `check_tf_version` rejects exactly when the import failed, the
version attribute is missing, or the version string is lexicographically
smaller than the string 1.1.0 — `pyStrLt` coincides with Lean's
lexicographic order on strings — and in particular the string 1.1 is
rejected even though as a version it is not below 1.1.0. -/
theorem check_tf_version_lexicographic :
    (∀ (t : TfImport) (tb : String),
      exceptIsErr (check_tf_version t tb) = versionCheckRejects t) ∧
    (∀ a b : String, pyStrLt a b = true ↔ a < b) ∧
    versionCheckRejects (TfImport.version "1.1") = true ∧
    (∀ tb : String, exceptIsErr (check_tf_version (TfImport.version "1.1") tb) = true) := by
  refine ⟨?_, ?_, by rfl, fun tb => by rfl⟩
  · intro t tb
    cases t with
    | absent => rfl
    | noVersionAttr => rfl
    | version v =>
      simp only [check_tf_version, versionCheckRejects]
      cases h : pyStrLt v "1.1.0" <;> simp [h, exceptIsErr]
  · intro a b
    rw [String.lt_iff_toList_lt]
    exact pyCharsLt_iff a.data b.data
